import Mathlib

/-!
Shallow embedding of `scripts/convert_csv.py`.

The script converts a vendor CSV of price candles into a fixed six-column
schema.  `convert_csv(input_file, output_file)`:
  * opens the source for reading and the destination for writing (`'w'`,
    truncating); if the source is missing, `FileNotFoundError` is caught,
    a message naming the path is printed and `0` is returned before the
    destination is ever opened;
  * writes the fixed header `timestamp,open,high,low,close,volume`;
  * discards the first input line (`next(reader)`); on a completely empty
    source this raises `StopIteration`, caught by the generic
    `except Exception` arm, which prints an error and returns `0`;
  * for each remaining row: rows with fewer than 7 fields are skipped
    silently; otherwise the timestamp `row[0]` is parsed with
    `datetime.strptime(ts, "%Y-%m-%dT%H:%M:%S.%fZ")`; on `ValueError` a
    diagnostic naming the value is printed and the row is skipped; on
    success the row `[strftime("%Y-%m-%d %H:%M:%S"), row[1..5]]` is
    written and the count incremented;
  * returns the count.

Modelling decisions, each tied to the source:
  * Files are modelled by their content: the source as
    `Option (List String)` (`none` = the path does not exist, `some lines`
    = the file's lines), the destination as the list of lines the run
    leaves behind (`none` = not created/modified).
  * `csv.reader` on the quote-free vendor rows is splitting a line on
    `","`; `csv.writer` on fields without delimiter/quote characters joins
    them with `","`.  (Python's quoting rules for `"` inside fields are
    not exercised by any claim and are not modelled.)
  * printed diagnostics are modelled as a list of message strings; the
    purely informational prints (`Input header: ...`,
    `Converted N data points`) are omitted, the error prints are kept.
    The Python text of the underlying exception in
    `Error parsing timestamp {ts}: {e}` is abstracted away; the model
    keeps the offending value `ts` in the message.
  * CPython `_strptime` compiles the format to a regex per field:
    `%Y ↦ \d\d\d\d`, `%m ↦ 1[0-2]|0[1-9]|[1-9]`,
    `%d ↦ 3[01]|[12]\d|0[1-9]|[1-9]`, `%H ↦ 2[0-3]|[0-1]\d|\d`,
    `%M ↦ [0-5]\d|\d`, `%S ↦ 6[0-1]|[0-5]\d|\d`, `%f ↦ [0-9]{1,6}`,
    and requires the match to cover the whole string.  Because every
    literal in this format is a non-digit, regex backtracking inside a
    digit run can never succeed where maximal munch fails, so each field
    is faithfully read as the maximal digit run with a length bound and a
    value range check.  The regex is compiled IGNORECASE, so the literals
    `T` and `Z` also match `t` and `z`.  `datetime(...)` then validates
    `1 <= year`, `day <= days in month` (Gregorian leap rule) and
    `second <= 59` (the regex admits leap seconds 60/61, the constructor
    rejects them); a failure is a `ValueError`, caught like a parse error.
  * `strftime("%Y-%m-%d %H:%M:%S")` zero-pads `%m %d %H %M %S` to two
    digits, but CPython delegates `%Y` to the C library, and glibc
    prints the year as a plain decimal number with no padding: year 99
    renders as `99`, not `0099`.  Years below 1000 are reachable here
    (strptime accepts `0099-...`), so `%Y` is modelled unpadded; a
    Python `datetime` year is always `1..9999`.
-/

namespace ConvertCsv

/-- One parsed timestamp, the fields of a Python `datetime` that this
script reads and writes. -/
structure PyDateTime where
  year : Nat
  month : Nat
  day : Nat
  hour : Nat
  minute : Nat
  second : Nat
  microsecond : Nat
deriving DecidableEq, Repr

/-- Value of a list of decimal digit characters, most significant first. -/
def digitsToNatAux (a : Nat) : List Char → Nat
  | [] => a
  | c :: cs => digitsToNatAux (10 * a + (c.toNat - 48)) cs

/-- Value of a list of decimal digit characters. -/
def digitsToNat (ds : List Char) : Nat := digitsToNatAux 0 ds

/-- The decimal digit character for `n % 10`. -/
def digitChar (n : Nat) : Char := Char.ofNat (48 + n % 10)

/-- `n % 10 ^ k` rendered as exactly `k` zero-padded decimal digits. -/
def padDigits : Nat → Nat → List Char
  | 0, _ => []
  | k + 1, n => padDigits k (n / 10) ++ [digitChar n]

/-- Maximal digit run at the head of `cs`, value-checked against
`lo ≤ v ≤ hi`, at most two digits: the common shape of the `%m %d %H %M %S`
field regexes of CPython `_strptime` (see the file comment for why maximal
munch is equivalent to the regex here). -/
def readNum2 (lo hi : Nat) (cs : List Char) : Option (Nat × List Char) :=
  let ds := cs.takeWhile Char.isDigit
  if ds.length = 0 ∨ 2 < ds.length then none
  else
    let v := digitsToNat ds
    if lo ≤ v ∧ v ≤ hi then some (v, cs.dropWhile Char.isDigit) else none

/-- The `%Y` field: exactly four digits (`\d\d\d\d`). -/
def readYear (cs : List Char) : Option (Nat × List Char) :=
  let ds := cs.takeWhile Char.isDigit
  if ds.length = 4 then some (digitsToNat ds, cs.dropWhile Char.isDigit)
  else none

/-- The `%f` field: one to six digits, scaled to microseconds
(`int(value) * 10 ** (6 - len(value))` in `_strptime`). -/
def readFrac (cs : List Char) : Option (Nat × List Char) :=
  let ds := cs.takeWhile Char.isDigit
  if ds.length = 0 ∨ 6 < ds.length then none
  else some (digitsToNat ds * 10 ^ (6 - ds.length), cs.dropWhile Char.isDigit)

/-- A literal of the format string.  `_strptime` compiles the format with
`IGNORECASE`, so an alphabetic literal also matches the other case. -/
def expectChar (c : Char) : List Char → Option (List Char)
  | [] => none
  | x :: xs => if x = c ∨ x.toLower = c.toLower then some xs else none

/-- Gregorian leap-year rule, as in Python's `datetime` module. -/
def isLeapYear (y : Nat) : Bool :=
  y % 4 = 0 && (y % 100 ≠ 0 || y % 400 = 0)

/-- Days in month `m` of year `y` (months `1..12`), as in `datetime`. -/
def days_in_month (y m : Nat) : Nat :=
  if m = 2 then (if isLeapYear y then 29 else 28)
  else if m = 4 ∨ m = 6 ∨ m = 9 ∨ m = 11 then 30
  else 31

/-- The validation done by the `datetime` constructor on the values that
`_strptime` extracted: `MINYEAR <= year`, the day fits the month, and the
second is at most 59 (the `%S` regex admits 60 and 61, the constructor
raises `ValueError` on them). -/
def mkDateTime (y m d h mi s f : Nat) : Option PyDateTime :=
  if 1 ≤ y ∧ d ≤ days_in_month y m ∧ s ≤ 59 then some ⟨y, m, d, h, mi, s, f⟩
  else none

/-- The `%Y-%m-%d` prefix of the format: year, `-`, month, `-`, day. -/
def parseDate (cs : List Char) : Option (Nat × Nat × Nat × List Char) :=
  (readYear cs).bind fun yr =>
  (expectChar '-' yr.2).bind fun r1 =>
  (readNum2 1 12 r1).bind fun mo =>
  (expectChar '-' mo.2).bind fun r2 =>
  (readNum2 1 31 r2).bind fun dy =>
  some (yr.1, mo.1, dy.1, dy.2)

/-- The `%H:%M:%S` part of the format: hour, `:`, minute, `:`, second. -/
def parseHMS (cs : List Char) : Option (Nat × Nat × Nat × List Char) :=
  (readNum2 0 23 cs).bind fun hr =>
  (expectChar ':' hr.2).bind fun r1 =>
  (readNum2 0 59 r1).bind fun mi =>
  (expectChar ':' mi.2).bind fun r2 =>
  (readNum2 0 61 r2).bind fun sc =>
  some (hr.1, mi.1, sc.1, sc.2)

/-- The `.%fZ` tail of the format: dot, fraction, `Z`. -/
def parseFracZ (cs : List Char) : Option (Nat × List Char) :=
  (expectChar '.' cs).bind fun r1 =>
  (readFrac r1).bind fun fr =>
  (expectChar 'Z' fr.2).bind fun r2 =>
  some (fr.1, r2)

/-- `datetime.strptime(s, "%Y-%m-%dT%H:%M:%S.%fZ")` on the character
list of `s`, `none` for the `ValueError` the script catches. -/
def strptimeL (cs : List Char) : Option PyDateTime :=
  (parseDate cs).bind fun d =>
  (expectChar 'T' d.2.2.2).bind fun r =>
  (parseHMS r).bind fun t =>
  (parseFracZ t.2.2.2).bind fun f =>
  if f.2 = [] then mkDateTime d.1 d.2.1 d.2.2.1 t.1 t.2.1 t.2.2.1 f.1
  else none

/-- `datetime.strptime(s, "%Y-%m-%dT%H:%M:%S.%fZ")`, `none` for the
`ValueError` the script catches. -/
def strptime_iso (s : String) : Option PyDateTime := strptimeL s.data

/-- glibc `%Y`: the year printed as a plain decimal number without zero
padding (year 99 renders as `99`).  A Python `datetime` year is
`1..9999`, so the four cases cover the whole domain. -/
def yearDigits (y : Nat) : List Char :=
  if y < 10 then padDigits 1 y
  else if y < 100 then padDigits 2 y
  else if y < 1000 then padDigits 3 y
  else padDigits 4 y

/-- `dt.strftime("%Y-%m-%d %H:%M:%S")`: `%Y` unpadded as in glibc, the
other fields zero-padded to two digits. -/
def strftime_out (dt : PyDateTime) : String :=
  ⟨yearDigits dt.year ++ '-' :: padDigits 2 dt.month ++ '-' ::
    padDigits 2 dt.day ++ ' ' :: padDigits 2 dt.hour ++ ':' ::
    padDigits 2 dt.minute ++ ':' :: padDigits 2 dt.second⟩

/-- Lines 42-43 of the script: parse the timestamp and render it in the
output format; `none` when `strptime` raises. -/
def reformat_timestamp (ts : String) : Option String :=
  (strptime_iso ts).map strftime_out

/-- Split a character list at commas; the empty input is one empty
field, as in Python's field splitting. -/
def splitFieldsL : List Char → List (List Char)
  | [] => [[]]
  | c :: cs =>
    let rest := splitFieldsL cs
    if c = ',' then [] :: rest
    else
      match rest with
      | [] => [[c]]
      | f :: fs => (c :: f) :: fs

/-- `csv.reader` on one quote-free line: the comma-separated fields. -/
def parseLine (line : String) : List String :=
  (splitFieldsL line.data).map String.mk

/-- `csv.writer.writerow` on fields that contain no delimiter or quote
character: the fields joined by commas. -/
def writeRow : List String → String
  | [] => ""
  | [f] => f
  | f :: fs => f ++ "," ++ writeRow fs

/-- The fixed header the script always writes first
(`writer.writerow(['timestamp', 'open', 'high', 'low', 'close', 'volume'])`). -/
def output_header : String := "timestamp,open,high,low,close,volume"

/-- Diagnostic for a timestamp `ValueError`
(`Error parsing timestamp {ts}: {e}`; the exception text is abstracted,
the offending value is kept). -/
def tsErrMsg (ts : String) : String := "Error parsing timestamp " ++ ts

/-- Diagnostic of the `FileNotFoundError` arm, naming the source path. -/
def notFoundMsg (input_file : String) : String :=
  "Input file not found: " ++ input_file

/-- Diagnostic of the generic `except Exception` arm. -/
def convertErrMsg : String := "Error converting CSV"

/-- What the loop body (lines 27-51) does with one data row. -/
inductive RowOutcome where
  | shortRow : RowOutcome
  | parseFail : String → RowOutcome
  | ok : List String → RowOutcome
deriving DecidableEq, Repr

/-- One iteration of `for row in reader`: rows with fewer than 7 fields
are skipped (`continue`, silently); otherwise `row[0]` is parsed; on
failure the row is skipped with a diagnostic naming the value; on success
the six output fields are produced, `row[1..5]` passed through unchanged
and `row[6]` and beyond dropped. -/
def processRow (row : List String) : RowOutcome :=
  if row.length < 7 then .shortRow
  else
    match strptime_iso (row.getD 0 "") with
    | none => .parseFail (row.getD 0 "")
    | some dt =>
        .ok [strftime_out dt, row.getD 1 "", row.getD 2 "", row.getD 3 "",
             row.getD 4 "", row.getD 5 ""]

/-- Loop state: lines written to the destination so far (after the
header), the running `count`, and the diagnostics printed so far. -/
abbrev LoopState := List String × Nat × List String

/-- The loop body folded over the input lines. -/
def stepRow (acc : LoopState) (line : String) : LoopState :=
  match processRow (parseLine line) with
  | .shortRow => acc
  | .parseFail v => (acc.1, acc.2.1, acc.2.2 ++ [tsErrMsg v])
  | .ok fields => (acc.1 ++ [writeRow fields], acc.2.1 + 1, acc.2.2)

/-- Result of one run: the destination file's lines (`none` when the file
was neither created nor modified), the returned count, and the
diagnostics printed. -/
structure RunResult where
  outFile : Option (List String)
  count : Nat
  diags : List String
deriving DecidableEq, Repr

/-- `convert_csv(input_file, output_file)` as a function of the source
file content (`none` = the path does not exist).
  * Source missing: `open(input_file)` raises `FileNotFoundError` before
    the destination is opened, so the destination is untouched; the
    handler prints the path and returns 0.
  * Source empty: the destination is truncated and the header written,
    then `next(reader)` raises `StopIteration`, caught by the generic
    `except Exception` arm after the `with` block flushed the header;
    returns 0.
  * Otherwise: the first line is discarded as the input header and the
    loop processes the remaining lines in order. -/
def convert_csv (input_file : String) (src : Option (List String)) :
    RunResult :=
  match src with
  | none => ⟨none, 0, [notFoundMsg input_file]⟩
  | some [] => ⟨some [output_header], 0, [convertErrMsg]⟩
  | some (_header :: rows) =>
      let final := rows.foldl stepRow ([], 0, [])
      ⟨some (output_header :: final.1), final.2.1, final.2.2⟩

/-- The output line one input line contributes, when it contributes one:
used to characterise the loop. -/
def emitted (line : String) : Option String :=
  match processRow (parseLine line) with
  | .ok fields => some (writeRow fields)
  | _ => none

/-- The diagnostic one input line causes to be printed, if any. -/
def diagOf (line : String) : Option String :=
  match processRow (parseLine line) with
  | .parseFail v => some (tsErrMsg v)
  | _ => none

/-- Spec-side row validity (section 8 of the spec): at least 7 fields and
a timestamp that parses. -/
def validRow (line : String) : Bool :=
  decide (7 ≤ (parseLine line).length) &&
    (strptime_iso ((parseLine line).getD 0 "")).isSome

/-- Spec-side count: the number of valid rows. -/
def countValid (rows : List String) : Nat := (rows.filter validRow).length

/-- The date part `YYYY-MM-DD` of a datetime, zero-padded. -/
def datePartL (dt : PyDateTime) : List Char :=
  padDigits 4 dt.year ++ '-' :: padDigits 2 dt.month ++ '-' ::
    padDigits 2 dt.day

/-- The time part `HH:MM:SS` of a datetime, zero-padded. -/
def timePartL (dt : PyDateTime) : List Char :=
  padDigits 2 dt.hour ++ ':' :: padDigits 2 dt.minute ++ ':' ::
    padDigits 2 dt.second

/-- The characters of the spec's input shape
`YYYY-MM-DDTHH:MM:SS.ffffffZ` for the components of `dt`. -/
def isoRenderL (dt : PyDateTime) : List Char :=
  datePartL dt ++ 'T' :: timePartL dt ++ '.' ::
    padDigits 6 dt.microsecond ++ ['Z']

/-- The spec's input shape `YYYY-MM-DDTHH:MM:SS.ffffffZ` as a string. -/
def isoRender (dt : PyDateTime) : String := ⟨isoRenderL dt⟩

/-- The components of a real timestamp: a calendar-valid Gregorian
datetime whose rendered year fills exactly four digits and whose
fractional part fills the six `ffffff` digits. -/
def validDT (dt : PyDateTime) : Prop :=
  1 ≤ dt.year ∧ dt.year ≤ 9999 ∧ 1 ≤ dt.month ∧ dt.month ≤ 12 ∧
  1 ≤ dt.day ∧ dt.day ≤ days_in_month dt.year dt.month ∧
  dt.hour ≤ 23 ∧ dt.minute ≤ 59 ∧ dt.second ≤ 59 ∧
  dt.microsecond ≤ 999999

instance (dt : PyDateTime) : Decidable (validDT dt) := by
  unfold validDT
  infer_instance

/-! ### Rendering lemmas: zero-padded digit runs parse back to their value -/

theorem digitChar_isDigit (n : Nat) : (digitChar n).isDigit = true := by
  have h : n % 10 < 10 := Nat.mod_lt _ (by norm_num)
  have hall : ∀ r < 10, (Char.ofNat (48 + r)).isDigit = true := by decide
  exact hall _ h

theorem digitChar_toNat (n : Nat) : (digitChar n).toNat = 48 + n % 10 := by
  have h : n % 10 < 10 := Nat.mod_lt _ (by norm_num)
  have hall : ∀ r < 10, (Char.ofNat (48 + r)).toNat = 48 + r := by decide
  exact hall _ h

theorem padDigits_length (k n : Nat) : (padDigits k n).length = k := by
  induction k generalizing n with
  | zero => rfl
  | succ k ih => simp [padDigits, ih]

theorem padDigits_isDigit (k n : Nat) :
    ∀ c ∈ padDigits k n, c.isDigit = true := by
  induction k generalizing n with
  | zero => intro c hc; simp [padDigits] at hc
  | succ k ih =>
    intro c hc
    simp only [padDigits, List.mem_append, List.mem_singleton] at hc
    rcases hc with h | h
    · exact ih _ c h
    · subst h; exact digitChar_isDigit n

theorem digitsToNatAux_append (a : Nat) (xs : List Char) (c : Char) :
    digitsToNatAux a (xs ++ [c]) =
      10 * digitsToNatAux a xs + (c.toNat - 48) := by
  induction xs generalizing a with
  | nil => rfl
  | cons x xs ih => exact ih (10 * a + (x.toNat - 48))

theorem mod_ten_pow_succ (k n : Nat) :
    n % 10 ^ (k + 1) = 10 * (n / 10 % 10 ^ k) + n % 10 := by
  have h : n % (10 * 10 ^ k) = n % 10 + 10 * (n / 10 % 10 ^ k) := Nat.mod_mul
  rw [pow_succ, mul_comm (10 ^ k) 10]
  omega

theorem digitsToNatAux_padDigits (k : Nat) :
    ∀ a n, digitsToNatAux a (padDigits k n) = a * 10 ^ k + n % 10 ^ k := by
  induction k with
  | zero =>
    intro a n
    show a = a * 10 ^ 0 + n % 10 ^ 0
    omega
  | succ k ih =>
    intro a n
    rw [show padDigits (k + 1) n = padDigits k (n / 10) ++ [digitChar n]
          from rfl,
        digitsToNatAux_append, ih, digitChar_toNat, mod_ten_pow_succ,
        Nat.add_sub_cancel_left]
    ring

theorem digitsToNat_padDigits (k n : Nat) :
    digitsToNat (padDigits k n) = n % 10 ^ k := by
  have h := digitsToNatAux_padDigits k 0 n
  simpa [digitsToNat] using h

theorem takeWhile_digits (ds : List Char) (h : ∀ c ∈ ds, c.isDigit = true)
    (c : Char) (hc : c.isDigit = false) (rest : List Char) :
    (ds ++ c :: rest).takeWhile Char.isDigit = ds := by
  induction ds with
  | nil => simp [List.takeWhile_cons, hc]
  | cons d ds ih =>
    have hd : d.isDigit = true := h d (by simp)
    simp only [List.cons_append, List.takeWhile_cons, hd, if_true]
    rw [ih (fun x hx => h x (by simp [hx]))]

theorem dropWhile_digits (ds : List Char) (h : ∀ c ∈ ds, c.isDigit = true)
    (c : Char) (hc : c.isDigit = false) (rest : List Char) :
    (ds ++ c :: rest).dropWhile Char.isDigit = c :: rest := by
  induction ds with
  | nil => simp [List.dropWhile_cons, hc]
  | cons d ds ih =>
    have hd : d.isDigit = true := h d (by simp)
    simp only [List.cons_append, List.dropWhile_cons, hd, if_true]
    exact ih (fun x hx => h x (by simp [hx]))

theorem readNum2_pad (lo hi v : Nat) (c : Char) (rest : List Char)
    (hv : v ≤ 99) (hlo : lo ≤ v) (hhi : v ≤ hi) (hc : c.isDigit = false) :
    readNum2 lo hi (padDigits 2 v ++ c :: rest) = some (v, c :: rest) := by
  have hval : digitsToNat (padDigits 2 v) = v := by
    rw [digitsToNat_padDigits]
    exact Nat.mod_eq_of_lt (by omega)
  simp only [readNum2,
    takeWhile_digits _ (padDigits_isDigit 2 v) c hc rest,
    dropWhile_digits _ (padDigits_isDigit 2 v) c hc rest,
    padDigits_length, hval]
  rw [if_neg (by omega), if_pos ⟨hlo, hhi⟩]

theorem readYear_pad (v : Nat) (c : Char) (rest : List Char)
    (hv : v ≤ 9999) (hc : c.isDigit = false) :
    readYear (padDigits 4 v ++ c :: rest) = some (v, c :: rest) := by
  have hval : digitsToNat (padDigits 4 v) = v := by
    rw [digitsToNat_padDigits]
    exact Nat.mod_eq_of_lt (by omega)
  simp only [readYear,
    takeWhile_digits _ (padDigits_isDigit 4 v) c hc rest,
    dropWhile_digits _ (padDigits_isDigit 4 v) c hc rest,
    padDigits_length, hval]
  simp

theorem readFrac_pad (v : Nat) (c : Char) (rest : List Char)
    (hv : v ≤ 999999) (hc : c.isDigit = false) :
    readFrac (padDigits 6 v ++ c :: rest) = some (v, c :: rest) := by
  have hval : digitsToNat (padDigits 6 v) = v := by
    rw [digitsToNat_padDigits]
    exact Nat.mod_eq_of_lt (by omega)
  simp only [readFrac,
    takeWhile_digits _ (padDigits_isDigit 6 v) c hc rest,
    dropWhile_digits _ (padDigits_isDigit 6 v) c hc rest,
    padDigits_length, hval]
  rw [if_neg (by omega)]
  norm_num

theorem expectChar_self (c : Char) (rest : List Char) :
    expectChar c (c :: rest) = some rest := by
  simp [expectChar]

theorem days_in_month_le (y m : Nat) : days_in_month y m ≤ 31 := by
  unfold days_in_month
  split
  · split <;> omega
  · split <;> omega

/-! ### Round trip: a rendered valid datetime parses back to itself -/

theorem parseDate_pad (y m d : Nat) (c : Char) (rest : List Char)
    (hy : y ≤ 9999) (hm1 : 1 ≤ m) (hm2 : m ≤ 12) (hd1 : 1 ≤ d)
    (hd2 : d ≤ 31) (hc : c.isDigit = false) :
    parseDate (padDigits 4 y ++ '-' :: (padDigits 2 m ++ '-' ::
      (padDigits 2 d ++ c :: rest))) = some (y, m, d, c :: rest) := by
  unfold parseDate
  rw [readYear_pad y '-' _ hy (by decide)]
  simp only [Option.some_bind]
  rw [expectChar_self]
  simp only [Option.some_bind]
  rw [readNum2_pad 1 12 m '-' _ (by omega) hm1 hm2 (by decide)]
  simp only [Option.some_bind]
  rw [expectChar_self]
  simp only [Option.some_bind]
  rw [readNum2_pad 1 31 d c _ (by omega) hd1 hd2 hc]
  simp only [Option.some_bind]

theorem parseHMS_pad (h mi s : Nat) (c : Char) (rest : List Char)
    (hh : h ≤ 23) (hmi : mi ≤ 59) (hs : s ≤ 61) (hc : c.isDigit = false) :
    parseHMS (padDigits 2 h ++ ':' :: (padDigits 2 mi ++ ':' ::
      (padDigits 2 s ++ c :: rest))) = some (h, mi, s, c :: rest) := by
  unfold parseHMS
  rw [readNum2_pad 0 23 h ':' _ (by omega) (Nat.zero_le _) hh (by decide)]
  simp only [Option.some_bind]
  rw [expectChar_self]
  simp only [Option.some_bind]
  rw [readNum2_pad 0 59 mi ':' _ (by omega) (Nat.zero_le _) hmi
    (by decide)]
  simp only [Option.some_bind]
  rw [expectChar_self]
  simp only [Option.some_bind]
  rw [readNum2_pad 0 61 s c _ (by omega) (Nat.zero_le _) hs hc]
  simp only [Option.some_bind]

theorem parseFracZ_pad (f : Nat) (rest : List Char) (hf : f ≤ 999999) :
    parseFracZ ('.' :: (padDigits 6 f ++ 'Z' :: rest)) = some (f, rest) := by
  unfold parseFracZ
  rw [expectChar_self]
  simp only [Option.some_bind]
  rw [readFrac_pad f 'Z' rest hf (by decide)]
  simp only [Option.some_bind]
  rw [expectChar_self]
  simp only [Option.some_bind]

theorem strptimeL_isoRenderL (dt : PyDateTime) (h : validDT dt) :
    strptimeL (isoRenderL dt) = some dt := by
  obtain ⟨h1, h2, h3, h4, h5, h6, h7, h8, h9, h10⟩ := h
  have hd31 : dt.day ≤ 31 := le_trans h6 (days_in_month_le dt.year dt.month)
  simp only [isoRenderL, datePartL, timePartL, List.append_assoc,
    List.cons_append]
  unfold strptimeL
  rw [parseDate_pad dt.year dt.month dt.day 'T' _ h2 h3 h4 h5 hd31
    (by decide)]
  simp only [Option.some_bind]
  rw [expectChar_self]
  simp only [Option.some_bind]
  rw [parseHMS_pad dt.hour dt.minute dt.second '.' _ h7 h8 (by omega)
    (by decide)]
  simp only [Option.some_bind]
  rw [parseFracZ_pad dt.microsecond [] h10]
  simp only [Option.some_bind, if_true]
  unfold mkDateTime
  rw [if_pos ⟨h1, h6, h9⟩]

theorem strptime_isoRender (dt : PyDateTime) (h : validDT dt) :
    strptime_iso (isoRender dt) = some dt :=
  strptimeL_isoRenderL dt h

theorem datePartL_length (dt : PyDateTime) : (datePartL dt).length = 10 := by
  simp [datePartL, padDigits_length]

theorem timePartL_length (dt : PyDateTime) : (timePartL dt).length = 8 := by
  simp [timePartL, padDigits_length]

theorem yearDigits_eq_pad4 (y : Nat) (h : 1000 ≤ y) :
    yearDigits y = padDigits 4 y := by
  unfold yearDigits
  rw [if_neg (by omega), if_neg (by omega), if_neg (by omega)]

theorem strftime_eq_parts (dt : PyDateTime) (hy : 1000 ≤ dt.year) :
    strftime_out dt = ⟨datePartL dt ++ ' ' :: timePartL dt⟩ := by
  simp [strftime_out, datePartL, timePartL, yearDigits_eq_pad4 _ hy]

theorem isoRenderL_take (dt : PyDateTime) :
    (isoRenderL dt).take 10 = datePartL dt := by
  unfold isoRenderL
  exact List.take_left' (datePartL_length dt)

theorem isoRenderL_drop_take (dt : PyDateTime) :
    ((isoRenderL dt).drop 11).take 8 = timePartL dt := by
  have hsplit : isoRenderL dt = (datePartL dt ++ ['T']) ++
      (timePartL dt ++ '.' :: (padDigits 6 dt.microsecond ++ ['Z'])) := by
    simp [isoRenderL, List.append_assoc]
  have hlen : (datePartL dt ++ ['T']).length = 11 := by
    simp [datePartL_length]
  rw [hsplit, List.drop_left' hlen]
  exact List.take_left' (timePartL_length dt)

/-! ### Characterisation of the conversion loop -/

theorem processRow_short (row : List String) (h : row.length < 7) :
    processRow row = RowOutcome.shortRow := by
  unfold processRow
  rw [if_pos h]

theorem processRow_fail (row : List String)
    (h7 : ¬ row.length < 7)
    (hts : strptime_iso (row.getD 0 "") = none) :
    processRow row = RowOutcome.parseFail (row.getD 0 "") := by
  unfold processRow
  rw [if_neg h7, hts]

theorem processRow_some (row : List String) (dt : PyDateTime)
    (h7 : ¬ row.length < 7)
    (hts : strptime_iso (row.getD 0 "") = some dt) :
    processRow row = RowOutcome.ok [strftime_out dt, row.getD 1 "",
      row.getD 2 "", row.getD 3 "", row.getD 4 "", row.getD 5 ""] := by
  unfold processRow
  rw [if_neg h7, hts]

theorem stepRow_short (acc : LoopState) (line : String)
    (h : processRow (parseLine line) = RowOutcome.shortRow) :
    stepRow acc line = acc := by
  simp [stepRow, h]

theorem stepRow_fail (acc : LoopState) (line : String) (v : String)
    (h : processRow (parseLine line) = RowOutcome.parseFail v) :
    stepRow acc line = (acc.1, acc.2.1, acc.2.2 ++ [tsErrMsg v]) := by
  simp [stepRow, h]

theorem stepRow_ok (acc : LoopState) (line : String) (fields : List String)
    (h : processRow (parseLine line) = RowOutcome.ok fields) :
    stepRow acc line =
      (acc.1 ++ [writeRow fields], acc.2.1 + 1, acc.2.2) := by
  simp [stepRow, h]

theorem foldl_stepRow (rows : List String) :
    ∀ ls cnt ds, rows.foldl stepRow (ls, cnt, ds) =
      (ls ++ rows.filterMap emitted,
       cnt + (rows.filterMap emitted).length,
       ds ++ rows.filterMap diagOf) := by
  induction rows with
  | nil => intro ls cnt ds; simp
  | cons r rs ih =>
    intro ls cnt ds
    rw [List.foldl_cons]
    cases hp : processRow (parseLine r) with
    | shortRow =>
      have he : emitted r = none := by simp [emitted, hp]
      have hd : diagOf r = none := by simp [diagOf, hp]
      rw [stepRow_short _ _ hp, ih, List.filterMap_cons, List.filterMap_cons,
        he, hd]
    | parseFail v =>
      have he : emitted r = none := by simp [emitted, hp]
      have hd : diagOf r = some (tsErrMsg v) := by simp [diagOf, hp]
      rw [stepRow_fail _ _ _ hp, ih, List.filterMap_cons, List.filterMap_cons,
        he, hd]
      simp [List.append_assoc]
    | ok fields =>
      have he : emitted r = some (writeRow fields) := by simp [emitted, hp]
      have hd : diagOf r = none := by simp [diagOf, hp]
      rw [stepRow_ok _ _ _ hp, ih, List.filterMap_cons, List.filterMap_cons,
        he, hd]
      simp [List.append_assoc]
      omega

theorem convert_csv_cons (p hdr : String) (rows : List String) :
    convert_csv p (some (hdr :: rows)) =
      ⟨some (output_header :: rows.filterMap emitted),
       (rows.filterMap emitted).length,
       rows.filterMap diagOf⟩ := by
  show (⟨some (output_header :: (rows.foldl stepRow ([], 0, [])).1),
      (rows.foldl stepRow ([], 0, [])).2.1,
      (rows.foldl stepRow ([], 0, [])).2.2⟩ : RunResult) = _
  rw [foldl_stepRow]
  simp

theorem emitted_isSome (line : String) :
    (emitted line).isSome = validRow line := by
  unfold emitted validRow
  by_cases h7 : (parseLine line).length < 7
  · have hle : ¬ 7 ≤ (parseLine line).length := by omega
    rw [processRow_short _ h7]
    simp [hle]
  · have hle : 7 ≤ (parseLine line).length := by omega
    cases hts : strptime_iso ((parseLine line).getD 0 "") with
    | none =>
      rw [processRow_fail _ h7 hts]
      simp [hle, hts]
    | some dt =>
      rw [processRow_some _ dt h7 hts]
      simp [hle, hts]

theorem length_filterMap_emitted (rows : List String) :
    (rows.filterMap emitted).length = countValid rows := by
  unfold countValid
  induction rows with
  | nil => rfl
  | cons r rs ih =>
    rw [List.filterMap_cons, List.filter_cons]
    cases he : emitted r with
    | none =>
      have hv : validRow r = false := by
        have := emitted_isSome r
        rw [he] at this
        simpa using this.symm
      simp [hv, ih]
    | some v =>
      have hv : validRow r = true := by
        have := emitted_isSome r
        rw [he] at this
        simpa using this.symm
      simp [hv, ih]

/-! ### The claims -/

/-- C1: for every input file whose source path exists, the count returned
by `convert_csv` equals the number of input rows after the first (header)
line whose field count is at least 7 and whose timestamp field parses in
the expected format; rows failing either condition contribute nothing to
the count. -/
theorem claim_count_eq_valid_rows (p : String) (lines : List String) :
    (convert_csv p (some lines)).count = countValid (lines.drop 1) := by
  cases lines with
  | nil => rfl
  | cons hdr rows =>
    rw [convert_csv_cons]
    exact length_filterMap_emitted rows

/-- C2, counterexample to the claim as stated: the string
`0099-12-31T23:59:59.999999Z` matches the shape
`YYYY-MM-DDTHH:MM:SS.ffffffZ` (it is the rendering of the calendar-valid
datetime with year 99), yet the script reformats it to
`99-12-31 23:59:59` — glibc `%Y` drops the leading zeros, so the year
field is altered, not just the `T`, fraction and `Z`. -/
theorem claim_timestamp_round_trip_counterexample :
    validDT ⟨99, 12, 31, 23, 59, 59, 999999⟩ ∧
    isoRender ⟨99, 12, 31, 23, 59, 59, 999999⟩ =
      "0099-12-31T23:59:59.999999Z" ∧
    reformat_timestamp "0099-12-31T23:59:59.999999Z" =
      some "99-12-31 23:59:59" ∧
    "99-12-31 23:59:59" ≠ "0099-12-31 23:59:59" :=
  ⟨by decide, rfl, rfl, by decide⟩

/-- C2 as amended: for any timestamp string matching the shape
`YYYY-MM-DDTHH:MM:SS.ffffffZ` (the rendering of a calendar-valid
datetime), the reformatting step of the script succeeds and yields the
datetime in `%Y-%m-%d %H:%M:%S` format; whenever the year is at least
1000 — so that its unpadded rendering fills the four `Y` digits — the
result is exactly `YYYY-MM-DD HH:MM:SS`: the first ten characters of the
input (the date), a space in place of the `T`, and the next eight
characters (the time), with the fractional seconds and the `Z` gone and
no other character altered.  For years below 1000 glibc `%Y` drops the
leading zeros (see the counterexample). -/
theorem claim_timestamp_round_trip (dt : PyDateTime) (h : validDT dt) :
    reformat_timestamp (isoRender dt) = some (strftime_out dt) ∧
    (1000 ≤ dt.year →
      (strftime_out dt).data = (isoRender dt).data.take 10 ++ ' ' ::
        ((isoRender dt).data.drop 11).take 8) := by
  constructor
  · unfold reformat_timestamp
    rw [strptime_isoRender dt h]
    rfl
  · intro hy
    rw [strftime_eq_parts dt hy]
    show datePartL dt ++ ' ' :: timePartL dt =
      (isoRenderL dt).take 10 ++ ' ' :: ((isoRenderL dt).drop 11).take 8
    rw [isoRenderL_take, isoRenderL_drop_take]

/-- Witness for C2 at `2020-01-01T00:00:00.000000Z`. -/
theorem claim_timestamp_round_trip_witness :
    reformat_timestamp (isoRender ⟨2020, 1, 1, 0, 0, 0, 0⟩) =
      some (strftime_out ⟨2020, 1, 1, 0, 0, 0, 0⟩) ∧
    (strftime_out ⟨2020, 1, 1, 0, 0, 0, 0⟩).data =
      (isoRender ⟨2020, 1, 1, 0, 0, 0, 0⟩).data.take 10 ++ ' ' ::
        ((isoRender ⟨2020, 1, 1, 0, 0, 0, 0⟩).data.drop 11).take 8 :=
  ⟨(claim_timestamp_round_trip ⟨2020, 1, 1, 0, 0, 0, 0⟩ (by decide)).1,
   (claim_timestamp_round_trip ⟨2020, 1, 1, 0, 0, 0, 0⟩ (by decide)).2
     (by decide)⟩

/-- C3: on the input consisting of a header line followed by the single
data row `2020-01-01T00:00:00.000Z,7200.0,7200.5,7199.0,7200.2,1.23,5`,
the run writes the fixed header followed by exactly
`2020-01-01 00:00:00,7200.0,7200.5,7199.0,7200.2,1.23`, returns count 1,
and prints no diagnostic. -/
theorem claim_single_row_scenario :
    convert_csv "data/temp_raw.csv"
      (some ["Time UTC,Open,High,Low,Close,Volume,Trades",
        "2020-01-01T00:00:00.000Z,7200.0,7200.5,7199.0,7200.2,1.23,5"]) =
      ⟨some ["timestamp,open,high,low,close,volume",
        "2020-01-01 00:00:00,7200.0,7200.5,7199.0,7200.2,1.23"], 1, []⟩ :=
  rfl

/-- C4: when the source path does not exist, `convert_csv` returns 0,
prints a diagnostic naming the missing path, and the destination file is
neither created nor modified (the `FileNotFoundError` is raised before
the destination is opened for writing). -/
theorem claim_missing_source (p : String) :
    convert_csv p none = ⟨none, 0, ["Input file not found: " ++ p]⟩ :=
  rfl

/-- C5: whenever the source file exists, the destination is created fresh
(its content after the run is exactly what this run wrote) and its first
line is the fixed header `timestamp,open,high,low,close,volume`, even
when zero data rows follow (empty source, or all rows skipped). -/
theorem claim_header_always_written (p : String) (lines : List String) :
    ∃ rest, (convert_csv p (some lines)).outFile =
      some ("timestamp,open,high,low,close,volume" :: rest) := by
  cases lines with
  | nil => exact ⟨[], rfl⟩
  | cons hdr rows =>
    refine ⟨rows.filterMap emitted, ?_⟩
    rw [convert_csv_cons]
    rfl

/-- C6: a data row with at least 7 fields whose timestamp does not parse
causes exactly one diagnostic naming the offending value
(`tsErrMsg` applied to the row's field 0), is not written and not
counted, and the rows before and after it are processed exactly as they
would be without it — the failure never aborts the run. -/
theorem claim_bad_timestamp_diagnostic (p hdr : String)
    (pre post : List String) (row : String)
    (hlen : 7 ≤ (parseLine row).length)
    (hts : strptime_iso ((parseLine row).getD 0 "") = none) :
    (convert_csv p (some (hdr :: (pre ++ row :: post)))).outFile =
      (convert_csv p (some (hdr :: (pre ++ post)))).outFile ∧
    (convert_csv p (some (hdr :: (pre ++ row :: post)))).count =
      (convert_csv p (some (hdr :: (pre ++ post)))).count ∧
    (convert_csv p (some (hdr :: (pre ++ row :: post)))).diags =
      pre.filterMap diagOf ++
        tsErrMsg ((parseLine row).getD 0 "") :: post.filterMap diagOf := by
  have h7 : ¬ (parseLine row).length < 7 := by omega
  have hp := processRow_fail (parseLine row) h7 hts
  have he : emitted row = none := by simp [emitted, hp]
  have hd : diagOf row = some (tsErrMsg ((parseLine row).getD 0 "")) := by
    simp [diagOf, hp]
  rw [convert_csv_cons, convert_csv_cons]
  simp [List.filterMap_append, List.filterMap_cons, he, hd]

/-- Witness for C6: the row `bad-timestamp,1,2,3,4,5,6` alone. -/
theorem claim_bad_timestamp_diagnostic_witness :
    (convert_csv "f"
        (some ["hdr", "bad-timestamp,1,2,3,4,5,6"])).outFile =
      (convert_csv "f" (some ["hdr"])).outFile ∧
    (convert_csv "f"
        (some ["hdr", "bad-timestamp,1,2,3,4,5,6"])).count =
      (convert_csv "f" (some ["hdr"])).count ∧
    (convert_csv "f"
        (some ["hdr", "bad-timestamp,1,2,3,4,5,6"])).diags =
      ["Error parsing timestamp bad-timestamp"] :=
  claim_bad_timestamp_diagnostic "f" "hdr" [] []
    "bad-timestamp,1,2,3,4,5,6" (by decide) (by decide)

/-- C7: a data row with fewer than 7 fields is skipped silently — the run
with it is identical (output file, count, diagnostics) to the run without
it — while a parsed row with exactly 7 fields passes the shape check
(its outcome is never `shortRow`). -/
theorem claim_short_row_silent (p hdr : String) (pre post : List String)
    (row : String) (hshort : (parseLine row).length < 7)
    (row7 : List String) (hlen7 : row7.length = 7) :
    convert_csv p (some (hdr :: (pre ++ row :: post))) =
      convert_csv p (some (hdr :: (pre ++ post))) ∧
    processRow row7 ≠ RowOutcome.shortRow := by
  constructor
  · have hp := processRow_short (parseLine row) hshort
    have he : emitted row = none := by simp [emitted, hp]
    have hd : diagOf row = none := by simp [diagOf, hp]
    rw [convert_csv_cons, convert_csv_cons]
    simp [List.filterMap_append, List.filterMap_cons, he, hd]
  · have h7 : ¬ row7.length < 7 := by omega
    cases hts : strptime_iso (row7.getD 0 "") with
    | none => rw [processRow_fail _ h7 hts]; simp
    | some dt => rw [processRow_some _ dt h7 hts]; simp

/-- Witness for C7: a 5-field row is dropped with no trace; a 7-field
row passes the shape check. -/
theorem claim_short_row_silent_witness :
    convert_csv "f" (some ["hdr", "a,b,c,d,e"]) =
      convert_csv "f" (some ["hdr"]) ∧
    processRow ["a", "b", "c", "d", "e", "f", "g"] ≠
      RowOutcome.shortRow :=
  claim_short_row_silent "f" "hdr" [] [] "a,b,c,d,e" (by decide)
    ["a", "b", "c", "d", "e", "f", "g"] (by decide)

/-- C8: every converted row consists of exactly six fields: the
reformatted timestamp followed by the strings at input positions 1-5
unchanged; the field at index 6 and beyond is dropped. -/
theorem claim_fields_passthrough (row fields : List String)
    (h : processRow row = RowOutcome.ok fields) :
    ∃ dt, strptime_iso (row.getD 0 "") = some dt ∧
      fields = [strftime_out dt, row.getD 1 "", row.getD 2 "",
        row.getD 3 "", row.getD 4 "", row.getD 5 ""] ∧
      fields.length = 6 := by
  by_cases h7 : row.length < 7
  · rw [processRow_short _ h7] at h
    exact absurd h (by simp)
  · cases hts : strptime_iso (row.getD 0 "") with
    | none =>
      rw [processRow_fail _ h7 hts] at h
      exact absurd h (by simp)
    | some dt =>
      rw [processRow_some _ dt h7 hts] at h
      injection h with hf
      refine ⟨dt, rfl, hf.symm, ?_⟩
      rw [← hf]
      rfl

/-- Witness for C8 on a 7-field row with a valid timestamp. -/
theorem claim_fields_passthrough_witness :
    ∃ dt, strptime_iso "2020-01-01T00:00:00.000Z" = some dt ∧
      (["2020-01-01 00:00:00", "o", "h", "l", "c", "v"] : List String) =
        [strftime_out dt, "o", "h", "l", "c", "v"] ∧
      (["2020-01-01 00:00:00", "o", "h", "l", "c", "v"] :
        List String).length = 6 :=
  claim_fields_passthrough
    ["2020-01-01T00:00:00.000Z", "o", "h", "l", "c", "v", "t"]
    ["2020-01-01 00:00:00", "o", "h", "l", "c", "v"] (by decide)

/-- C9: `convert_csv` is deterministic — two runs on identical source
content produce identical destination content, identical counts (and
identical diagnostics). -/
theorem claim_deterministic (p : String) (s1 s2 : Option (List String))
    (h : s1 = s2) : convert_csv p s1 = convert_csv p s2 := by
  rw [h]

/-- Witness for C9 on a concrete source. -/
theorem claim_deterministic_witness :
    convert_csv "f" (some ["hdr", "a,b,c,d,e,f,g"]) =
      convert_csv "f" (some ["hdr", "a,b,c,d,e,f,g"]) :=
  claim_deterministic "f" (some ["hdr", "a,b,c,d,e,f,g"])
    (some ["hdr", "a,b,c,d,e,f,g"]) rfl

/-- C10: on an existing but completely empty source file the destination
is still truncated and receives the header (flushed when the `with`
block closes the file), but `next(reader)` raises `StopIteration`, which
the generic `except Exception` arm reports; the run returns 0 and is
reported as failed even though the destination now holds the header. -/
theorem claim_empty_source (p : String) :
    convert_csv p (some []) =
      ⟨some ["timestamp,open,high,low,close,volume"], 0,
        ["Error converting CSV"]⟩ :=
  rfl

end ConvertCsv
